import Mathlib

/-!
Verification development for the Spotify integration subsystem of the
tubify backend (`src/tubify-core/src/backend/spotify_auth.py`).

The Python route handlers are shallowly embedded as pure Lean functions.
External effects (database rows, provider responses, wall-clock reads,
raised library exceptions) are passed in explicitly as arguments, and each
handler model returns, besides its HTTP response, counters for the side
effects the specification talks about (provider/network calls issued,
statements issued against the `spotify_credentials` table, the table
contents after the call).  Timestamps are modelled as integers (epoch
seconds); SQL strings and Python strings are Lean `String`s.
-/

namespace Tubify

/-- Sync status enum of the `liked_songs_sync_status` column.  Modelled from
the spec: the database schema itself is not part of the sources; the spec's
data model declares `sync_status` an enum over exactly these five values
(hence non-null), which is also the only shape this subsystem ever writes. -/
inductive SyncStatus where
  | not_started : SyncStatus
  | in_progress : SyncStatus
  | completed : SyncStatus
  | needs_update : SyncStatus
  | failed : SyncStatus
deriving DecidableEq, Repr

/-- One row of the `spotify_credentials` table, with the columns this
subsystem reads or writes.  `last_used_at` is nullable: the INSERT branch of
the callback upsert does not set it, so it is `none` until the first
conflict-update or token refresh writes `CURRENT_TIMESTAMP` into it. -/
structure SpotifyCredentials where
  user_id : Int
  spotify_id : String
  access_token : String
  refresh_token : String
  token_expires_at : Int
  liked_songs_sync_status : SyncStatus
  liked_songs_count : Nat
  last_used_at : Option Int
deriving DecidableEq, Repr

/-- A spotipy token-info dictionary.  `expires_in` is the provider-reported
token lifetime in seconds (refresh responses), `expires_at` the absolute
expiry timestamp (authorization-code exchange responses). -/
structure TokenInfo where
  access_token : String
  refresh_token : String
  expires_in : Nat
  expires_at : Int
deriving DecidableEq, Repr

/-- Python truthiness of an `Optional[str]` value, as tested by
`if error:` in `spotify_callback`: `None` and the empty string are falsy. -/
def pyTruthyStr : Option String → Bool
  | none => false
  | some s => decide (s ≠ "")

/-- The `SELECT * FROM spotify_credentials WHERE user_id = :user_id` read
performed by `get_spotify_client` (and, through `SELECT id`, the existence
checks of `spotify_connect` and `spotify_connection_status`). -/
def findCreds (db : List SpotifyCredentials) (uid : Int) : Option SpotifyCredentials :=
  db.find? (fun r => r.user_id == uid)

/-! ### OAuth helper instances and their in-memory token caches (C1)

`spotify_auth.py` builds one module-level `SpotifyOAuth` named `sp_oauth`
at import time (line 55), giving it a single `MemoryCacheHandler()`
(line 61); every callback token exchange goes through this shared instance
(line 152).  The token-refresh path of `get_spotify_client` instead builds
a fresh `SpotifyOAuth` with a fresh `MemoryCacheHandler()` on every call
(lines 80-86).  We record, per operation, which cache-handler instance
(identified by its allocation site) the operation uses. -/

/-- Identity of a `MemoryCacheHandler` instance, by allocation site. -/
inductive CacheId where
  | moduleLevel : CacheId
  | freshPerRefresh : Nat → CacheId
deriving DecidableEq, Repr

/-- Cache-handler instance used by the token exchange of callback request
number `requestId`: always the module-level `sp_oauth`'s single handler
(spotify_auth.py line 152 calls `sp_oauth.get_access_token`). -/
def callback_exchange_cache (_requestId : Nat) : CacheId :=
  CacheId.moduleLevel

/-- Cache-handler instance used by the refresh-token grant of
`get_spotify_client` call number `requestId`: a fresh `MemoryCacheHandler()`
constructed inside that call (spotify_auth.py lines 80-86). -/
def refresh_grant_cache (requestId : Nat) : CacheId :=
  CacheId.freshPerRefresh requestId

/-- Model of spotipy `SpotifyOAuth.get_access_token(code)` with its default
`check_cache=True`, restricted to what matters here: if the handler holds a
cached token that is still valid (spotipy treats a token as expired within
60 seconds of `expires_at`; the scope check always passes because every
helper in this module is built with the same module-constant scope string),
the cached token is returned and no exchange happens; otherwise the code is
exchanged and the result saved to the cache.  Returns the token handed to
the caller and the cache contents afterwards. -/
def spotipy_get_access_token (cache : Option TokenInfo) (now : Int)
    (exchanged : TokenInfo) : TokenInfo × Option TokenInfo :=
  match cache with
  | some tok =>
    if now < tok.expires_at - 60 then (tok, some tok)
    else (exchanged, some exchanged)
  | none => (exchanged, some exchanged)

/-! ### Token Refresh Gate: `get_spotify_client` (lines 66-107) -/

/-- Outcome of a `get_spotify_client` call: the produced client (carrying
the access token it authenticates with) or the raised `HTTPException`
(status, detail); how many refresh-token grants were issued against the
provider; and the row written by the `UPDATE spotify_credentials`
statement, `none` when no write was issued. -/
structure GateOutcome where
  client : Except (Nat × String) String
  refreshCalls : Nat
  write : Option SpotifyCredentials
deriving Repr

/-- Shallow embedding of `get_spotify_client`.  `db` is the
`spotify_credentials` table, `uid` the authenticated user's id, `now` the
`datetime.now(timezone.utc)` read at the expiry comparison (line 78),
`now2` the second clock read used for the persisted expiry (line 100), and
`rr` the provider's response to `refresh_access_token` (line 87).  The
UPDATE (lines 88-104) sets the two tokens, `token_expires_at = now2 +
expires_in`, and `last_used_at = CURRENT_TIMESTAMP`, leaving every other
column of the row unchanged. -/
def get_spotify_client (db : List SpotifyCredentials) (uid : Int)
    (now now2 : Int) (rr : TokenInfo) : GateOutcome :=
  match findCreds db uid with
  | none =>
    { client := Except.error (401, "spotify account not connected"),
      refreshCalls := 0, write := none }
  | some c =>
    if c.token_expires_at ≤ now then
      { client := Except.ok rr.access_token,
        refreshCalls := 1,
        write := some { c with
          access_token := rr.access_token,
          refresh_token := rr.refresh_token,
          token_expires_at := now2 + (rr.expires_in : Int),
          last_used_at := some now2 } }
    else
      { client := Except.ok c.access_token, refreshCalls := 0, write := none }

/-! ### `GET /connect`: `spotify_connect` (lines 115-130) -/

/-- Model of `sp_oauth.get_authorize_url(state=str(user.id))`: the provider
authorize URL carrying the user id as the opaque `state` value. -/
def get_authorize_url (uid : Int) : String :=
  "https://accounts.spotify.com/authorize?state=" ++ toString uid

/-- Outcome of `spotify_connect`: the response (authorize URL or raised
`HTTPException`) and the number of `get_authorize_url` invocations. -/
structure ConnectOutcome where
  response : Except (Nat × String) String
  authorizeUrlCalls : Nat
deriving Repr

/-- Shallow embedding of `spotify_connect`.  The handler runs
`SELECT id FROM spotify_credentials WHERE user_id = :user_id` (via the
database driver this returns the row's id, truthy exactly when a row
exists, ids being a positive serial) and raises 400 when a row exists;
otherwise it builds and returns the authorize URL. -/
def spotify_connect (db : List SpotifyCredentials) (uid : Int) : ConnectOutcome :=
  match findCreds db uid with
  | some _ =>
    { response := Except.error (400, "spotify already connected"),
      authorizeUrlCalls := 0 }
  | none =>
    { response := Except.ok (get_authorize_url uid), authorizeUrlCalls := 1 }

/-! ### `GET /callback`: `spotify_callback` (lines 133-207) -/

/-- Response of the callback route: a FastAPI request-validation rejection
(the handler body never ran), a raised `HTTPException`, or a
`RedirectResponse` to the given URL. -/
inductive CallbackResponse where
  | validationError : CallbackResponse
  | httpError : Nat → String → CallbackResponse
  | redirect : String → CallbackResponse
deriving DecidableEq, Repr

/-- Outcome of a callback request: the response, the number of network
calls issued (the code-for-token exchange and the `sp.current_user()`
provider call), the number of SQL statements issued against
`spotify_credentials`, and that table's contents after the request. -/
structure CallbackOutcome where
  response : CallbackResponse
  networkCalls : Nat
  credStoreOps : Nat
  db : List SpotifyCredentials
deriving DecidableEq, Repr

/-- The conflict branch of the callback upsert (lines 172-183): overwrite
`spotify_id`, both tokens and `token_expires_at`, stamp `last_used_at`, and
demote `liked_songs_sync_status` from `completed` to `needs_update`,
otherwise keep it (the SQL's `COALESCE(status, 'not_started')` fallback is
for a NULL stored status, which the schema's enum rules out). -/
def conflict_update (r : SpotifyCredentials) (sid atk rtk : String)
    (expires_at now : Int) : SpotifyCredentials :=
  { r with
    spotify_id := sid,
    access_token := atk,
    refresh_token := rtk,
    token_expires_at := expires_at,
    last_used_at := some now,
    liked_songs_sync_status :=
      if r.liked_songs_sync_status = SyncStatus.completed
      then SyncStatus.needs_update
      else r.liked_songs_sync_status }

/-- The insert branch of the callback upsert (lines 165-171): a brand-new
row with `liked_songs_sync_status = 'not_started'` and
`liked_songs_count = 0`; `last_used_at` is not in the column list. -/
def fresh_row (uid : Int) (sid atk rtk : String) (expires_at : Int) :
    SpotifyCredentials :=
  { user_id := uid, spotify_id := sid, access_token := atk,
    refresh_token := rtk, token_expires_at := expires_at,
    liked_songs_sync_status := SyncStatus.not_started,
    liked_songs_count := 0, last_used_at := none }

/-- Shallow embedding of the `INSERT ... ON CONFLICT (user_id) DO UPDATE`
statement of the callback (lines 163-192).  `user_id` carries a unique
constraint (the statement's conflict target), so when a row for `uid`
exists the statement updates it in place, and otherwise appends the fresh
row. -/
def upsert_spotify_credentials (db : List SpotifyCredentials) (uid : Int)
    (sid atk rtk : String) (expires_at now : Int) : List SpotifyCredentials :=
  if db.any (fun r => r.user_id == uid) then
    db.map (fun r =>
      if r.user_id == uid then conflict_update r sid atk rtk expires_at now else r)
  else
    db ++ [fresh_row uid sid atk rtk expires_at]

/-- Shallow embedding of the body of `spotify_callback` (lines 140-207),
entered once FastAPI has supplied `code` and `state`.  `state_int` is the
outcome of Python `int(state)` (`none` when it raises `ValueError`);
`exchange` is the result of the code-for-token exchange, `currentUser` the
result of `sp.current_user()` (its `id` field), each `Except.error` being a
raised exception's message; `insertRaises` says whether the upsert
statement raises (that exception is swallowed, line 193-194).  `now` is the
write timestamp. -/
def spotify_callback_body (frontendUrl : String) (_code _state : String)
    (state_int : Option Int) (error : Option String)
    (exchange : Except String TokenInfo) (currentUser : Except String String)
    (db : List SpotifyCredentials) (insertRaises : Bool) (now : Int) :
    CallbackOutcome :=
  if pyTruthyStr error then
    { response := CallbackResponse.httpError 400
        ("spotify auth error: " ++ error.getD ""),
      networkCalls := 0, credStoreOps := 0, db := db }
  else
    match state_int with
    | none =>
      { response := CallbackResponse.httpError 400 "invalid state parameter",
        networkCalls := 0, credStoreOps := 0, db := db }
    | some user_id =>
      match exchange with
      | Except.error e =>
        { response := CallbackResponse.redirect
            (frontendUrl ++ "?spotify_error=" ++ e),
          networkCalls := 1, credStoreOps := 0, db := db }
      | Except.ok tok =>
        match currentUser with
        | Except.error e =>
          { response := CallbackResponse.redirect
              (frontendUrl ++ "?spotify_error=" ++ e),
            networkCalls := 2, credStoreOps := 0, db := db }
        | Except.ok sid =>
          { response := CallbackResponse.redirect
              (frontendUrl ++ "?spotify_connected=true"),
            networkCalls := 2, credStoreOps := 1,
            db := if insertRaises then db
                  else upsert_spotify_credentials db user_id sid
                    tok.access_token tok.refresh_token tok.expires_at now }

/-- Shallow embedding of the callback route including FastAPI's request
validation: `code: str` and `state: str` are declared without defaults, so
they are required query parameters, and a request missing either is
rejected by the framework's validation layer before the handler body runs
(modelled framework behaviour; `error` alone is optional). -/
def spotify_callback (frontendUrl : String) (codeQ stateQ : Option String)
    (state_int : Option Int) (error : Option String)
    (exchange : Except String TokenInfo) (currentUser : Except String String)
    (db : List SpotifyCredentials) (insertRaises : Bool) (now : Int) :
    CallbackOutcome :=
  match codeQ, stateQ with
  | some c, some s =>
    spotify_callback_body frontendUrl c s state_int error exchange
      currentUser db insertRaises now
  | _, _ =>
    { response := CallbackResponse.validationError,
      networkCalls := 0, credStoreOps := 0, db := db }

/-! ### Read-proxy endpoints: `GET /playlists` and `GET /recently-played`
(lines 230-311) -/

/-- A playlist object of a provider playlist-listing page, with the fields
the handler reads. -/
structure SpotifyPlaylist where
  id : String
  name : String
  description : Option String
deriving DecidableEq, Repr

/-- A record returned by `GET /playlists`. -/
structure PlaylistOut where
  id : String
  name : String
  description : Option String
  is_imported : Bool
deriving DecidableEq, Repr

/-- One row of the application's own `playlists` table, with the columns
the handler's cross-reference query reads.  `spotify_playlist_id` is
nullable (the query filters on `IS NOT NULL`). -/
structure PlaylistRow where
  user_id : Int
  spotify_playlist_id : Option String
deriving DecidableEq, Repr

/-- The `SELECT spotify_playlist_id FROM playlists WHERE user_id = :uid AND
spotify_playlist_id IS NOT NULL` query (lines 247-254). -/
def imported_playlist_ids (table : List PlaylistRow) (uid : Int) : List String :=
  (table.filter (fun r => r.user_id == uid && r.spotify_playlist_id.isSome)).filterMap
    (fun r => r.spotify_playlist_id)

/-- The `while results["next"]` pagination loop (lines 242-244): starting
from the items of the first page, extend the accumulator with each
following page until no next-page cursor remains (a page has a cursor
exactly when further pages exist). -/
def paginate (acc : List SpotifyPlaylist) :
    List (List SpotifyPlaylist) → List SpotifyPlaylist
  | [] => acc
  | page :: rest => paginate (acc ++ page) rest

/-- The response-shaping comprehension (lines 262-270): each playlist is
annotated with `is_imported`, membership of its id in the set of imported
spotify playlist ids read from the local table. -/
def format_playlists (playlists : List SpotifyPlaylist)
    (importedIds : List String) : List PlaylistOut :=
  playlists.map (fun p =>
    { id := p.id, name := p.name, description := p.description,
      is_imported := importedIds.contains p.id })

/-- The body of `get_spotify_playlists` after a client was obtained:
paginate through every provider page, read the imported ids from the local
`playlists` table, and shape the result.  `firstPage` is the response of
`sp.current_user_playlists(limit=50)`, `more` the pages returned by the
successive `sp.next` calls. -/
def get_spotify_playlists_body (firstPage : List SpotifyPlaylist)
    (more : List (List SpotifyPlaylist)) (table : List PlaylistRow)
    (uid : Int) : List PlaylistOut :=
  format_playlists (paginate firstPage more) (imported_playlist_ids table uid)

/-- Outcome of a read-proxy endpoint: the HTTP response (payload or raised
`HTTPException`) and the number of provider API calls issued on behalf of
the request, refresh-token grants included. -/
structure EndpointOutcome (α : Type) where
  response : Except (Nat × String) α
  providerCalls : Nat
deriving Repr

/-- Shallow embedding of the `GET /playlists` route: the
`get_spotify_client` dependency runs first and its `HTTPException`
short-circuits the endpoint; otherwise the provider listing (first page,
following pages) is fetched — modelled as one argument, `Except.error`
being a raised provider exception caught by the handler's `except` — and
the body of `get_spotify_playlists` shapes the result. -/
def get_spotify_playlists (db : List SpotifyCredentials) (uid : Int)
    (now now2 : Int) (rr : TokenInfo)
    (provider : Except String (List SpotifyPlaylist × List (List SpotifyPlaylist)))
    (table : List PlaylistRow) : EndpointOutcome (List PlaylistOut) :=
  let gate := get_spotify_client db uid now now2 rr
  match gate.client with
  | Except.error e =>
    { response := Except.error e, providerCalls := gate.refreshCalls }
  | Except.ok _ =>
    match provider with
    | Except.error msg =>
      { response := Except.error
          (500, "failed to fetch spotify playlists: " ++ msg),
        providerCalls := gate.refreshCalls + 1 }
    | Except.ok (firstPage, more) =>
      { response := Except.ok (get_spotify_playlists_body firstPage more table uid),
        providerCalls := gate.refreshCalls + 1 + more.length }

/-- One item of the provider's recently-played response, with the fields
the handler reads (`album_image_urls` lists the album's image URLs in
order). -/
structure RecentlyPlayedItem where
  track_name : String
  artist_names : List String
  album_name : String
  played_at : String
  spotify_url : String
  album_image_urls : List String
deriving DecidableEq, Repr

/-- A record returned by `GET /recently-played`. -/
structure FormattedTrack where
  track_name : String
  artist_name : List String
  album_name : String
  played_at : String
  spotify_url : String
  album_art_url : Option String
deriving DecidableEq, Repr

/-- The response-shaping comprehension of `get_recently_played_tracks`
(lines 290-304): `album_art_url` is the first album image's URL when one
exists, else `None`. -/
def format_track (item : RecentlyPlayedItem) : FormattedTrack :=
  { track_name := item.track_name, artist_name := item.artist_names,
    album_name := item.album_name, played_at := item.played_at,
    spotify_url := item.spotify_url,
    album_art_url := item.album_image_urls.head? }

/-- Shallow embedding of the `GET /recently-played` route: the
`get_spotify_client` dependency runs first and its `HTTPException`
short-circuits the endpoint; otherwise `sp.current_user_recently_played`
is called (`provider`, `Except.error` being a raised provider exception)
and the items reshaped. -/
def get_recently_played_tracks (db : List SpotifyCredentials) (uid : Int)
    (now now2 : Int) (rr : TokenInfo) (_limit : Nat)
    (provider : Except String (List RecentlyPlayedItem)) :
    EndpointOutcome (List FormattedTrack) :=
  let gate := get_spotify_client db uid now now2 rr
  match gate.client with
  | Except.error e =>
    { response := Except.error e, providerCalls := gate.refreshCalls }
  | Except.ok _ =>
    match provider with
    | Except.error msg =>
      { response := Except.error
          (500, "Failed to fetch recently played tracks: " ++ msg),
        providerCalls := gate.refreshCalls + 1 }
    | Except.ok items =>
      { response := Except.ok (items.map format_track),
        providerCalls := gate.refreshCalls + 1 }

/-- A concrete stored row whose token expires at time 100, used as a test
fixture by witnesses below. -/
def staleRow : SpotifyCredentials :=
  { user_id := 1, spotify_id := "sp-1", access_token := "old-access",
    refresh_token := "old-refresh", token_expires_at := 100,
    liked_songs_sync_status := SyncStatus.not_started,
    liked_songs_count := 0, last_used_at := none }

/-- A concrete stored row whose liked-songs sync already completed, used as
a test fixture by witnesses below. -/
def completedRow : SpotifyCredentials :=
  { user_id := 1, spotify_id := "old-sp", access_token := "old-a",
    refresh_token := "old-r", token_expires_at := 100,
    liked_songs_sync_status := SyncStatus.completed,
    liked_songs_count := 42, last_used_at := some 10 }

/-! ### Helper lemmas -/

/-- List membership through `contains` is plain membership. -/
theorem contains_eq_decide_mem (l : List String) (a : String) :
    l.contains a = decide (a ∈ l) := by
  simp [List.elem_iff]

/-- The pagination loop accumulates exactly the concatenation of all pages
onto its accumulator. -/
theorem paginate_eq_append_flatten (pages : List (List SpotifyPlaylist)) :
    ∀ acc, paginate acc pages = acc ++ pages.flatten := by
  induction pages with
  | nil => intro acc; simp [paginate]
  | cons page rest ih => intro acc; simp [paginate, ih, List.append_assoc]

/-- Mapping an update over the rows matching a key preserves how many rows
match the key, provided the update preserves the key. -/
theorem length_filter_map_ite {α : Type} (p : α → Bool) (f : α → α)
    (hf : ∀ a, p (f a) = p a) (l : List α) :
    ((l.map (fun a => if p a then f a else a)).filter p).length
      = (l.filter p).length := by
  induction l with
  | nil => rfl
  | cons a t ih =>
    cases hpa : p a with
    | true => simp [hpa, hf, ih]
    | false => simp [hpa, ih]

/-- Mapping an update over the rows matching a key turns the first match
into its update, provided the update preserves the key. -/
theorem find?_map_ite {α : Type} (p : α → Bool) (f : α → α)
    (hf : ∀ a, p (f a) = p a) (l : List α) :
    (l.map (fun a => if p a then f a else a)).find? p = (l.find? p).map f := by
  induction l with
  | nil => rfl
  | cons a t ih =>
    cases hpa : p a with
    | true =>
      simp only [List.map_cons, if_pos hpa]
      rw [List.find?_cons_of_pos _ (by rw [hf]; exact hpa),
        List.find?_cons_of_pos _ hpa]
      rfl
    | false =>
      have hna : ¬ (p a = true) := by simp [hpa]
      simp only [List.map_cons, if_neg hna]
      rw [List.find?_cons_of_neg _ hna, List.find?_cons_of_neg _ hna]
      exact ih

/-- Searching an appended list skips a prefix with no match. -/
theorem find?_append_of_none {α : Type} (p : α → Bool) {l1 : List α}
    (l2 : List α) (h : l1.find? p = none) :
    (l1 ++ l2).find? p = l2.find? p := by
  induction l1 with
  | nil => rfl
  | cons a t ih =>
    cases hpa : p a with
    | true => rw [List.find?_cons_of_pos _ hpa] at h; cases h
    | false =>
      rw [List.find?_cons_of_neg _ (by simp [hpa])] at h
      rw [List.cons_append, List.find?_cons_of_neg _ (by simp [hpa])]
      exact ih h

/-! ### Claims -/

/-- C1: the claim states that every OAuth token operation uses a
single-request helper instance whose in-memory token cache is never reused
across requests, for both the callback code-for-token exchange and the
refresh-token grant.  The code violates this for the callback exchange:
every callback request goes through the module-level `sp_oauth`, whose one
`MemoryCacheHandler` outlives requests, so with spotipy's default cache
check a second callback request is handed the token the first request
cached ("user1-access" below) instead of its own exchange result
("user2-access"). -/
theorem c1_callback_exchange_shares_module_cache :
    callback_exchange_cache 0 = callback_exchange_cache 1 ∧
    (spotipy_get_access_token
        (spotipy_get_access_token none 0
          { access_token := "user1-access", refresh_token := "user1-refresh",
            expires_in := 3600, expires_at := 3600 }).2
        10
        { access_token := "user2-access", refresh_token := "user2-refresh",
          expires_in := 3600, expires_at := 3610 }).1.access_token
      = "user1-access" := by
  exact ⟨rfl, rfl⟩

/-- C8: for every user with an existing Credential row, `GET /connect`
fails with HTTP 400 regardless of the stored row's contents, and no
authorize URL is built. -/
theorem c8_connect_already_connected_400 (db : List SpotifyCredentials)
    (uid : Int) (r : SpotifyCredentials) (h : findCreds db uid = some r) :
    spotify_connect db uid
      = { response := Except.error (400, "spotify already connected"),
          authorizeUrlCalls := 0 } := by
  simp [spotify_connect, h]

/-- Witness for C8: a user whose stored row holds an expired, garbage token
still gets the 400 and no authorize URL. -/
theorem c8_connect_already_connected_400_witness :
    spotify_connect
        [{ user_id := 7, spotify_id := "sp-7", access_token := "expired-garbage",
           refresh_token := "revoked", token_expires_at := -1000,
           liked_songs_sync_status := SyncStatus.failed,
           liked_songs_count := 0, last_used_at := none }] 7
      = { response := Except.error (400, "spotify already connected"),
          authorizeUrlCalls := 0 } :=
  c8_connect_already_connected_400
    [{ user_id := 7, spotify_id := "sp-7", access_token := "expired-garbage",
       refresh_token := "revoked", token_expires_at := -1000,
       liked_songs_sync_status := SyncStatus.failed,
       liked_songs_count := 0, last_used_at := none }] 7
    { user_id := 7, spotify_id := "sp-7", access_token := "expired-garbage",
      refresh_token := "revoked", token_expires_at := -1000,
      liked_songs_sync_status := SyncStatus.failed,
      liked_songs_count := 0, last_used_at := none } (by decide)

/-- C9: for every user whose Credential row has `now < token_expires_at`,
`get_spotify_client` returns a client authenticated with the stored access
token, issues no refresh call, and issues no database write (so every
column of the row is left unchanged). -/
theorem c9_fresh_token_read_only (db : List SpotifyCredentials) (uid : Int)
    (now now2 : Int) (rr : TokenInfo) (c : SpotifyCredentials)
    (hc : findCreds db uid = some c) (hvalid : now < c.token_expires_at) :
    get_spotify_client db uid now now2 rr
      = { client := Except.ok c.access_token, refreshCalls := 0, write := none } := by
  simp only [get_spotify_client, hc]
  rw [if_neg (by omega)]

/-- Witness for C9: a row expiring at 1000 read at time 10 yields the
stored token, no refresh and no write. -/
theorem c9_fresh_token_read_only_witness :
    get_spotify_client
        [{ user_id := 3, spotify_id := "sp-3", access_token := "stored-access",
           refresh_token := "stored-refresh", token_expires_at := 1000,
           liked_songs_sync_status := SyncStatus.completed,
           liked_songs_count := 12, last_used_at := some 5 }] 3 10 11
        { access_token := "unused", refresh_token := "unused",
          expires_in := 3600, expires_at := 0 }
      = { client := Except.ok "stored-access", refreshCalls := 0, write := none } :=
  c9_fresh_token_read_only
    [{ user_id := 3, spotify_id := "sp-3", access_token := "stored-access",
       refresh_token := "stored-refresh", token_expires_at := 1000,
       liked_songs_sync_status := SyncStatus.completed,
       liked_songs_count := 12, last_used_at := some 5 }] 3 10 11
    { access_token := "unused", refresh_token := "unused",
      expires_in := 3600, expires_at := 0 }
    { user_id := 3, spotify_id := "sp-3", access_token := "stored-access",
      refresh_token := "stored-refresh", token_expires_at := 1000,
      liked_songs_sync_status := SyncStatus.completed,
      liked_songs_count := 12, last_used_at := some 5 } (by decide) (by decide)

/-- C5: for every authenticated user without a Credential row, both
endpoints depending on `get_spotify_client` — `GET /recently-played` and
`GET /playlists` — fail with HTTP 401 and no provider API call is
attempted. -/
theorem c5_no_row_gives_401_no_provider_call (db : List SpotifyCredentials)
    (uid : Int) (now now2 : Int) (rr : TokenInfo) (limit : Nat)
    (provR : Except String (List RecentlyPlayedItem))
    (provP : Except String (List SpotifyPlaylist × List (List SpotifyPlaylist)))
    (table : List PlaylistRow) (h : findCreds db uid = none) :
    (get_recently_played_tracks db uid now now2 rr limit provR).response
        = Except.error (401, "spotify account not connected") ∧
    (get_recently_played_tracks db uid now now2 rr limit provR).providerCalls = 0 ∧
    (get_spotify_playlists db uid now now2 rr provP table).response
        = Except.error (401, "spotify account not connected") ∧
    (get_spotify_playlists db uid now now2 rr provP table).providerCalls = 0 := by
  simp [get_recently_played_tracks, get_spotify_playlists, get_spotify_client, h]

/-- Witness for C5: with an empty credentials table, both endpoints return
401 and issue zero provider calls. -/
theorem c5_no_row_gives_401_no_provider_call_witness :
    (get_recently_played_tracks [] 1 0 0
        { access_token := "x", refresh_token := "y", expires_in := 0, expires_at := 0 }
        50 (Except.ok [])).response
        = Except.error (401, "spotify account not connected") ∧
    (get_recently_played_tracks [] 1 0 0
        { access_token := "x", refresh_token := "y", expires_in := 0, expires_at := 0 }
        50 (Except.ok [])).providerCalls = 0 ∧
    (get_spotify_playlists [] 1 0 0
        { access_token := "x", refresh_token := "y", expires_in := 0, expires_at := 0 }
        (Except.ok ([], [])) []).response
        = Except.error (401, "spotify account not connected") ∧
    (get_spotify_playlists [] 1 0 0
        { access_token := "x", refresh_token := "y", expires_in := 0, expires_at := 0 }
        (Except.ok ([], [])) []).providerCalls = 0 :=
  c5_no_row_gives_401_no_provider_call [] 1 0 0 _ 50 _ _ [] rfl

/-- C3 counterexample: the claim's last conjunct ("the persisted new
`token_expires_at` is strictly greater than the old one") fails at a
concrete input.  With the stored expiry at 100, both clock reads at 100 and
a refresh response whose `expires_in` is 0, the refresh is issued (first
conjunct) but the persisted expiry is 100 again — equal to, not strictly
greater than, the old value (second conjunct). -/
theorem c3_refresh_counterexample :
    (get_spotify_client [staleRow] 1 100 100
        { access_token := "new-access", refresh_token := "new-refresh",
          expires_in := 0, expires_at := 0 }).refreshCalls = 1 ∧
    ((get_spotify_client [staleRow] 1 100 100
        { access_token := "new-access", refresh_token := "new-refresh",
          expires_in := 0, expires_at := 0 }).write.map
      (fun w => w.token_expires_at)) = some 100 := by
  exact ⟨rfl, rfl⟩

/-- C3 (amended): with an existing Credential row and a monotone clock,
`get_spotify_client` issues no refresh when `now < token_expires_at` and
exactly one refresh when `now >= token_expires_at`; in the refresh case the
persisted new expiry is at least the old one, and strictly greater whenever
the provider-reported `expires_in` is positive. -/
theorem c3_refresh_gate_amended (db : List SpotifyCredentials) (uid : Int)
    (now now2 : Int) (rr : TokenInfo) (c : SpotifyCredentials)
    (hc : findCreds db uid = some c) (hmono : now ≤ now2) :
    (now < c.token_expires_at →
      (get_spotify_client db uid now now2 rr).refreshCalls = 0) ∧
    (c.token_expires_at ≤ now →
      (get_spotify_client db uid now now2 rr).refreshCalls = 1 ∧
      ∃ w, (get_spotify_client db uid now now2 rr).write = some w ∧
        c.token_expires_at ≤ w.token_expires_at ∧
        (0 < rr.expires_in → c.token_expires_at < w.token_expires_at)) := by
  constructor
  · intro h
    simp only [get_spotify_client, hc]
    rw [if_neg (by omega)]
  · intro h
    simp only [get_spotify_client, hc]
    rw [if_pos h]
    refine ⟨rfl,
      { c with
        access_token := rr.access_token,
        refresh_token := rr.refresh_token,
        token_expires_at := now2 + (rr.expires_in : Int),
        last_used_at := some now2 }, rfl, ?_, ?_⟩
    · show c.token_expires_at ≤ now2 + (rr.expires_in : Int)
      omega
    · intro he
      show c.token_expires_at < now2 + (rr.expires_in : Int)
      omega

/-- Witness for the amended C3: a row expired at 100, read at time 150 with
the second clock read at 160 and a 3600-second refresh response, yields one
refresh and a persisted expiry strictly beyond 100. -/
theorem c3_refresh_gate_amended_witness :
    (get_spotify_client [staleRow] 1 150 160
        { access_token := "new-access", refresh_token := "new-refresh",
          expires_in := 3600, expires_at := 0 }).refreshCalls = 1 ∧
    ∃ w, (get_spotify_client [staleRow] 1 150 160
        { access_token := "new-access", refresh_token := "new-refresh",
          expires_in := 3600, expires_at := 0 }).write = some w ∧
      (100 : Int) ≤ w.token_expires_at ∧
      (0 < (3600 : Nat) → (100 : Int) < w.token_expires_at) :=
  (c3_refresh_gate_amended [staleRow] 1 150 160
    { access_token := "new-access", refresh_token := "new-refresh",
      expires_in := 3600, expires_at := 0 }
    staleRow (by decide) (by decide)).2 (by decide)

/-- C2 counterexample: the claim says a callback whose `error` parameter is
present and non-empty redirects to a frontend error URL; at the concrete
input below the handler instead raises `HTTPException` 400 carrying the
provider's error string (a different `CallbackResponse` constructor than
`redirect`). -/
theorem c2_error_counterexample :
    (spotify_callback_body "http://frontend" "code0" "7" (some 7)
        (some "access_denied")
        (Except.ok { access_token := "a", refresh_token := "r",
                     expires_in := 3600, expires_at := 100 })
        (Except.ok "sp-user") [] false 0).response
      = CallbackResponse.httpError 400 "spotify auth error: access_denied" := by
  rfl

/-- C2 (amended): for every callback reaching the handler with a non-empty
`error` parameter, the handler fails with HTTP 400 carrying the provider's
error string, and the Credential Store is untouched: no statement is issued
against `spotify_credentials` and the table is unchanged. -/
theorem c2_error_param_400_store_untouched (frontendUrl code state : String)
    (state_int : Option Int) (e : String)
    (exchange : Except String TokenInfo) (currentUser : Except String String)
    (db : List SpotifyCredentials) (insertRaises : Bool) (now : Int)
    (hne : e ≠ "") :
    spotify_callback_body frontendUrl code state state_int (some e) exchange
        currentUser db insertRaises now
      = { response := CallbackResponse.httpError 400 ("spotify auth error: " ++ e),
          networkCalls := 0, credStoreOps := 0, db := db } := by
  simp [spotify_callback_body, pyTruthyStr, hne]

/-- Witness for the amended C2: a callback with `error=access_denied` gets
the 400 with the provider's string and leaves the one-row store unchanged. -/
theorem c2_error_param_400_store_untouched_witness :
    spotify_callback_body "http://frontend" "code0" "7" (some 7)
        (some "access_denied")
        (Except.error "exchange never reached") (Except.error "never reached")
        [completedRow] false 0
      = { response := CallbackResponse.httpError 400
            "spotify auth error: access_denied",
          networkCalls := 0, credStoreOps := 0, db := [completedRow] } :=
  c2_error_param_400_store_untouched "http://frontend" "code0" "7" (some 7)
    "access_denied" (Except.error "exchange never reached")
    (Except.error "never reached") [completedRow] false 0 (by decide)

/-- C6: for every callback reaching the handler whose `state` does not
parse as an integer (Python `int(state)` raises) and whose `error`
parameter is absent, the handler returns HTTP 400 and zero network calls
have been issued — the token exchange and provider API are never reached
(the Credential Store is also untouched). -/
theorem c6_bad_state_400_before_network (frontendUrl code state : String)
    (state_int : Option Int) (error : Option String)
    (exchange : Except String TokenInfo) (currentUser : Except String String)
    (db : List SpotifyCredentials) (insertRaises : Bool) (now : Int)
    (herr : error = none) (hstate : state_int = none) :
    spotify_callback_body frontendUrl code state state_int error exchange
        currentUser db insertRaises now
      = { response := CallbackResponse.httpError 400 "invalid state parameter",
          networkCalls := 0, credStoreOps := 0, db := db } := by
  subst herr hstate
  simp [spotify_callback_body, pyTruthyStr]

/-- Witness for C6: a callback with a non-numeric `state` and no `error`
parameter yields the 400 with zero network calls. -/
theorem c6_bad_state_400_before_network_witness :
    spotify_callback_body "http://frontend" "code0" "not-a-number" none none
        (Except.ok { access_token := "a", refresh_token := "r",
                     expires_in := 3600, expires_at := 100 })
        (Except.ok "sp-user") [] false 0
      = { response := CallbackResponse.httpError 400 "invalid state parameter",
          networkCalls := 0, credStoreOps := 0, db := [] } :=
  c6_bad_state_400_before_network "http://frontend" "code0" "not-a-number"
    none none
    (Except.ok { access_token := "a", refresh_token := "r",
                 expires_in := 3600, expires_at := 100 })
    (Except.ok "sp-user") [] false 0 rfl rfl

/-- C10: `code` and `state` are required query parameters of the callback
route, so a request with `error` set but `code` or `state` missing is
rejected by request-parameter validation before the handler body runs; the
400-with-provider-error-string response occurs exactly when both `code` and
`state` are supplied alongside a non-empty `error`. -/
theorem c10_code_state_required (frontendUrl : String)
    (codeQ stateQ : Option String) (state_int : Option Int) (e : String)
    (exchange : Except String TokenInfo) (currentUser : Except String String)
    (db : List SpotifyCredentials) (insertRaises : Bool) (now : Int)
    (hne : e ≠ "") :
    ((codeQ = none ∨ stateQ = none) →
      spotify_callback frontendUrl codeQ stateQ state_int (some e) exchange
          currentUser db insertRaises now
        = { response := CallbackResponse.validationError,
            networkCalls := 0, credStoreOps := 0, db := db }) ∧
    (∀ c s, codeQ = some c → stateQ = some s →
      (spotify_callback frontendUrl codeQ stateQ state_int (some e) exchange
          currentUser db insertRaises now).response
        = CallbackResponse.httpError 400 ("spotify auth error: " ++ e)) := by
  constructor
  · intro h
    rcases h with h | h
    · subst h
      cases stateQ <;> rfl
    · subst h
      cases codeQ <;> rfl
  · intro c s hc hs
    subst hc hs
    simp [spotify_callback, spotify_callback_body, pyTruthyStr, hne]

/-- Witness for C10: a callback carrying `error=denied` but no `code` query
parameter is rejected by validation, untouched handler state included. -/
theorem c10_code_state_required_witness :
    spotify_callback "http://frontend" none (some "1") none (some "denied")
        (Except.error "never reached") (Except.error "never reached")
        [completedRow] false 0
      = { response := CallbackResponse.validationError,
          networkCalls := 0, credStoreOps := 0, db := [completedRow] } :=
  (c10_code_state_required "http://frontend" none (some "1") none "denied"
    (Except.error "never reached") (Except.error "never reached")
    [completedRow] false 0 (by decide)).1 (Or.inl rfl)

/-- C7: `get_spotify_playlists` follows the next-page cursor until absent,
accumulating every page's items in order, and each returned record's
`is_imported` equals membership of the playlist's id in the set of
`spotify_playlist_id` values of the local `playlists` table for that user —
a function of the local table only, no provider-side flag. -/
theorem c7_pagination_and_local_import_flag (firstPage : List SpotifyPlaylist)
    (more : List (List SpotifyPlaylist)) (table : List PlaylistRow) (uid : Int) :
    get_spotify_playlists_body firstPage more table uid
      = ((firstPage :: more).flatten).map (fun p =>
          { id := p.id, name := p.name, description := p.description,
            is_imported := decide (p.id ∈ imported_playlist_ids table uid) }) := by
  simp [get_spotify_playlists_body, format_playlists,
    paginate_eq_append_flatten, contains_eq_decide_mem, List.flatten_cons]

/-- C4: given the unique key on `user_id` (at most one matching row before
the statement), the callback upsert leaves exactly one row for that user;
on conflict it overwrites `spotify_id`, both tokens and the expiry, stamps
`last_used_at`, demotes `liked_songs_sync_status` from `completed` to
`needs_update` and otherwise leaves the status (and the count) unchanged;
on first insert the row starts at `not_started`. -/
theorem c4_upsert_one_row_status_transition (db : List SpotifyCredentials)
    (uid : Int) (sid atk rtk : String) (expires_at now : Int)
    (huniq : (db.filter (fun r => r.user_id == uid)).length ≤ 1) :
    ((upsert_spotify_credentials db uid sid atk rtk expires_at now).filter
        (fun r => r.user_id == uid)).length = 1 ∧
    (∀ r, findCreds db uid = some r →
      findCreds (upsert_spotify_credentials db uid sid atk rtk expires_at now) uid
        = some { r with
            spotify_id := sid,
            access_token := atk,
            refresh_token := rtk,
            token_expires_at := expires_at,
            last_used_at := some now,
            liked_songs_sync_status :=
              if r.liked_songs_sync_status = SyncStatus.completed
              then SyncStatus.needs_update
              else r.liked_songs_sync_status }) ∧
    (findCreds db uid = none →
      findCreds (upsert_spotify_credentials db uid sid atk rtk expires_at now) uid
        = some (fresh_row uid sid atk rtk expires_at)) := by
  have hf : ∀ r : SpotifyCredentials,
      ((conflict_update r sid atk rtk expires_at now).user_id == uid)
        = (r.user_id == uid) := fun r => rfl
  cases hany : db.any (fun r => r.user_id == uid) with
  | true =>
    obtain ⟨x, hxmem, hpx⟩ := List.any_eq_true.mp hany
    have hfiltpos : 0 < (db.filter (fun r => r.user_id == uid)).length :=
      List.length_pos_of_mem (List.mem_filter.mpr ⟨hxmem, hpx⟩)
    refine ⟨?_, ?_, ?_⟩
    · unfold upsert_spotify_credentials
      rw [if_pos hany, length_filter_map_ite _ _ hf]
      omega
    · intro r hr
      unfold upsert_spotify_credentials
      rw [if_pos hany]
      unfold findCreds at hr ⊢
      rw [find?_map_ite _ _ hf, hr]
      rfl
    · intro hnone
      exfalso
      unfold findCreds at hnone
      rw [List.find?_eq_none] at hnone
      exact absurd hpx (by simpa using hnone x hxmem)
  | false =>
    have hnone : (db.find? (fun r => r.user_id == uid)) = none := by
      rw [List.find?_eq_none]
      intro x hx
      have hx2 := List.any_eq_false.mp hany x hx
      simpa using hx2
    have hfilnil : db.filter (fun r => r.user_id == uid) = [] := by
      rw [List.filter_eq_nil_iff]
      intro x hx
      have hx2 := List.any_eq_false.mp hany x hx
      simpa using hx2
    refine ⟨?_, ?_, ?_⟩
    · unfold upsert_spotify_credentials
      rw [if_neg (by simp [hany]), List.filter_append, hfilnil]
      simp [fresh_row]
    · intro r hr
      unfold findCreds at hr
      rw [hnone] at hr
      cases hr
    · intro _
      unfold upsert_spotify_credentials findCreds
      rw [if_neg (by simp [hany]), find?_append_of_none _ _ hnone,
        List.find?_cons_of_pos _ (by simp [fresh_row])]

/-- Witness for C4: re-linking a user whose sync already completed keeps a
single row, overwrites identity, tokens and expiry, preserves the count and
demotes the status to `needs_update`. -/
theorem c4_upsert_one_row_status_transition_witness :
    ((upsert_spotify_credentials [completedRow] 1 "new-sp" "new-a" "new-r" 500 50).filter
        (fun r => r.user_id == 1)).length = 1 ∧
    findCreds (upsert_spotify_credentials [completedRow] 1 "new-sp" "new-a" "new-r" 500 50) 1
      = some { user_id := 1, spotify_id := "new-sp", access_token := "new-a",
               refresh_token := "new-r", token_expires_at := 500,
               liked_songs_sync_status := SyncStatus.needs_update,
               liked_songs_count := 42, last_used_at := some 50 } := by
  have h := c4_upsert_one_row_status_transition [completedRow] 1 "new-sp"
    "new-a" "new-r" 500 50 (by decide)
  exact ⟨h.1, h.2.1 completedRow (by decide)⟩

end Tubify
